import Mathlib

set_option linter.unusedVariables false

/-!
Shallow embedding of the `constant_power` front-panel display stack:
the HD44780/AN6866 LCD driver (`src/components/my_lcd/my_lcd.cpp`) and
the menu/display-cache layer (`src/main/menu.cpp`).

The build configures `MY_LCD_8_BIT = 1` (`my_lcd.h`), so `write_byte`
is the 8-bit path: one byte-wide bus transaction per call.  We model
`write_byte` as the atomic fallible bus primitive: a transaction is a
`(byte, rs)` pair; an oracle gives each *attempted* transaction's
result (`none` = success).  Failure of a transaction corresponds to the
`CHECK`ed GPIO call inside `write_byte`; a failed transaction latches
nothing (the trace of successful writes is unchanged) but consumes an
attempt index.  Delays (`ets_delay_us`, `vTaskDelay`) have no
observable effect in this model and are dropped.
-/

namespace CP

/-- Error type standing for nonzero `esp_err_t` values: `invalid_arg` is
`ESP_ERR_INVALID_ARG`, `not_supported` is `ESP_ERR_NOT_SUPPORTED`, and
`bus_fail n` stands for an arbitrary other nonzero code returned by the
bus sink / GPIO layer.  `ESP_OK` is represented by `Option.none` in the
`Option esp_err_t` result position. -/
inductive esp_err_t where
  | invalid_arg
  | not_supported
  | bus_fail (code : Nat)
  deriving DecidableEq, Repr

/-- One successful bus transaction of `write_byte`: the data byte (already
reduced mod 256, matching the `uint8_t` parameter) and the RS flag
(`false` = command register, `true` = data register). -/
structure Wr where
  b : Nat
  rs : Bool
  deriving DecidableEq, Repr

/-- Bus state threaded through the driver: the list of bytes successfully
latched so far, and the count of attempted `write_byte` transactions
(an attempt that fails still consumes an index). -/
structure BusSt where
  t : List Wr
  n : Nat
  deriving DecidableEq, Repr

/-- Result of each attempted bus transaction, by attempt index:
`none` means the transaction succeeds, `some e` that it fails with `e`. -/
abbrev bus_oracle := Nat → Option esp_err_t

/-- Sequencing that mirrors the `CHECK(x)` macro: on error, return it at
once (keeping the bus state reached so far); otherwise continue. -/
def chk (r : BusSt × Option esp_err_t) (f : BusSt → BusSt × Option esp_err_t) :
    BusSt × Option esp_err_t :=
  match r with
  | (st, none) => f st
  | (st, some e) => (st, some e)

namespace my_lcd

/-- LCD font selector, from `hd44780_font_t` in `my_lcd.h`. -/
inductive hd44780_font_t where
  | HD44780_FONT_5X8
  | HD44780_FONT_5X10
  deriving DecidableEq, Repr

/-- LCD descriptor, from `hd44780_t` in `my_lcd.h`.  Only the fields the
verified operations read are kept: `has_write_cb` records whether the
`write_cb` bus-sink callback is non-null (the pin numbers and backlight
flag do not influence the byte/flag content of any transaction in the
8-bit `write_cb` configuration used by this program). -/
structure hd44780_t where
  has_write_cb : Bool
  font : hd44780_font_t
  lines : Nat
  deriving DecidableEq, Repr

/-- Command constants from `my_lcd.cpp`. -/
def CMD_CLEAR : Nat := 0x01
def CMD_ENTRY_MODE : Nat := 0x04
def CMD_DISPLAY_CTRL : Nat := 0x08
def CMD_FUNC_SET : Nat := 0x20
def CMD_CGRAM_ADDR : Nat := 0x40
def CMD_DDRAM_ADDR : Nat := 0x80
def ARG_EM_INCREMENT : Nat := 0x02
def ARG_DC_DISPLAY_ON : Nat := 0x04
def ARG_DC_CURSOR_ON : Nat := 0x02
def ARG_DC_CURSOR_BLINK : Nat := 0x01
def ARG_FS_8_BIT : Nat := 0x10
def ARG_FS_2_LINES : Nat := 0x08
def ARG_FS_FONT_5X10 : Nat := 0x04
def ARG_FS_4_LINES : Nat := 0x10

/-- Line-start DDRAM address table (`static const uint8_t line_addr[]`). -/
def line_addr : List Nat := [0x00, 0x40, 0x14, 0x54]

/-- One `write_byte` transaction (8-bit path of `my_lcd.cpp`): on success
the byte (mod 256, the `uint8_t` argument) is appended to the trace; on
failure nothing is latched.  Either way one attempt index is consumed. -/
def write_byte (ε : bus_oracle) (st : BusSt) (b : Nat) (rs : Bool) :
    BusSt × Option esp_err_t :=
  match ε st.n with
  | none => (⟨st.t ++ [⟨b % 256, rs⟩], st.n + 1⟩, none)
  | some e => (⟨st.t, st.n + 1⟩, some e)

/-- `my_lcd::set_function`: one function-set command built from the
descriptor's line count, font and the AN6866 codepage bits. -/
def set_function (lcd : hd44780_t) (ε : bus_oracle) (st : BusSt) (page : Nat) :
    BusSt × Option esp_err_t :=
  write_byte ε st
    (CMD_FUNC_SET
      + (if 1 < lcd.lines then ARG_FS_2_LINES else 0)
      + (if 2 < lcd.lines then ARG_FS_4_LINES else 0)
      + (if lcd.font = .HD44780_FONT_5X10 then ARG_FS_FONT_5X10 else 0)
      + page) false

/-- `my_lcd::control`: display on/off, cursor, blink. -/
def control (lcd : hd44780_t) (ε : bus_oracle) (st : BusSt)
    (disp_on cursor cursor_blink : Bool) : BusSt × Option esp_err_t :=
  write_byte ε st
    (CMD_DISPLAY_CTRL
      + (if disp_on then ARG_DC_DISPLAY_ON else 0)
      + (if cursor then ARG_DC_CURSOR_ON else 0)
      + (if cursor_blink then ARG_DC_CURSOR_BLINK else 0)) false

/-- `my_lcd::clear`: the clear command (the `long_delay()` that follows has
no observable effect here). -/
def clear (lcd : hd44780_t) (ε : bus_oracle) (st : BusSt) :
    BusSt × Option esp_err_t :=
  write_byte ε st CMD_CLEAR false

/-- `my_lcd::gotoxy`: `CHECK_ARG(lcd && line < lcd->lines && line <
sizeof(line_addr))`, then one set-DDRAM-address command with address
`line_addr[line] + col` (byte arithmetic mod 256 happens in
`write_byte`). -/
def gotoxy (lcd : hd44780_t) (ε : bus_oracle) (st : BusSt) (col line : Nat) :
    BusSt × Option esp_err_t :=
  if line < lcd.lines ∧ line < line_addr.length then
    write_byte ε st (CMD_DDRAM_ADDR + line_addr.getD line 0 + col) false
  else (st, some .invalid_arg)

/-- `my_lcd::putc`: one data-register write of `c + cp_offset`. -/
def putc (lcd : hd44780_t) (ε : bus_oracle) (st : BusSt) (c cp_offset : Nat) :
    BusSt × Option esp_err_t :=
  write_byte ε st (c + cp_offset) true

/-- `my_lcd::puts`: the `while (*s) { CHECK(putc(...)); s++; }` loop.  The
C string is modelled as the list of its characters before the
terminating NUL. -/
def puts (lcd : hd44780_t) (ε : bus_oracle) (st : BusSt) (s : List Nat)
    (cp_offset : Nat) : BusSt × Option esp_err_t :=
  match s with
  | [] => (st, none)
  | c :: rest => chk (putc lcd ε st c cp_offset) fun st =>
      puts lcd ε st rest cp_offset

/-- Data-byte upload loop of `my_lcd::upload_character`
(`for (i = 0; i < bytes; i++) CHECK(write_byte(lcd, data[i], true))`). -/
def write_data_list (ε : bus_oracle) (st : BusSt) (l : List Nat) :
    BusSt × Option esp_err_t :=
  match l with
  | [] => (st, none)
  | b :: rest => chk (write_byte ε st b true) fun st =>
      write_data_list ε st rest

/-- `my_lcd::upload_character`: `CHECK_ARG(lcd && data && num < 8)`, set
CGRAM address `num * bytes`, write `bytes` glyph bytes (8 for the 5x8
font, 10 for 5x10), then `gotoxy(lcd, 0, 0)`.  `data` gives the glyph
byte at each index. -/
def upload_character (lcd : hd44780_t) (ε : bus_oracle) (st : BusSt)
    (num : Nat) (data : Nat → Nat) : BusSt × Option esp_err_t :=
  if num < 8 then
    let bytes : Nat := if lcd.font = .HD44780_FONT_5X8 then 8 else 10
    chk (write_byte ε st (CMD_CGRAM_ADDR + num * bytes) false) fun st =>
    chk (write_data_list ε st ((List.range bytes).map data)) fun st =>
    gotoxy lcd ε st 0 0
  else (st, some .invalid_arg)

/-- The `CHECK`ed command sequence at the end of `my_lcd::init`'s body
(factored out for reasoning): function set, display off, clear, entry
mode set, display on. -/
def init_checked_tail (lcd : hd44780_t) (ε : bus_oracle) (st : BusSt)
    (page : Nat) : BusSt × Option esp_err_t :=
  chk (set_function lcd ε st page) fun st =>
  chk (control lcd ε st false false false) fun st =>
  chk (clear lcd ε st) fun st =>
  chk (write_byte ε st (CMD_ENTRY_MODE + ARG_EM_INCREMENT) false) fun st =>
  control lcd ε st true false false

/-- `my_lcd::init` in the `MY_LCD_8_BIT` configuration:
`CHECK_ARG(lcd && lcd->lines > 0 && lcd->lines < 5)`; when `write_cb`
is null, `CHECK(gpio_config(...))` (its result is the `gpio_cfg`
parameter); then the three warm-up function-set writes whose results
the source discards (`write_byte(lcd, ARG_FS_8_BIT | CMD_FUNC_SET,
false);` with no `CHECK`), followed by the `CHECK`ed sequence
`init_checked_tail`. -/
def init (lcd : hd44780_t) (gpio_cfg : Option esp_err_t) (ε : bus_oracle)
    (st : BusSt) (page : Nat) : BusSt × Option esp_err_t :=
  if 0 < lcd.lines ∧ lcd.lines < 5 then
    match (if lcd.has_write_cb then none else gpio_cfg) with
    | some e => (st, some e)
    | none =>
      let st := (write_byte ε st (ARG_FS_8_BIT + CMD_FUNC_SET) false).1
      let st := (write_byte ε st (ARG_FS_8_BIT + CMD_FUNC_SET) false).1
      let st := (write_byte ε st (ARG_FS_8_BIT + CMD_FUNC_SET) false).1
      init_checked_tail lcd ε st page
  else (st, some .invalid_arg)

end my_lcd

/-!
Menu layer (`src/main/menu.cpp`).  `float` values are modelled by `Fl`:
NaN, signed infinity, or a finite rational.  IEEE-754 comparison
semantics (`NaN != NaN`, used by `set_values`' change detection) is
`ieee_eq`/`ieee_ne`.
-/

/-- Model of a C `float` argument: NaN, an infinity, or a finite value
(the rational it denotes).  The distinction between +0.0 and -0.0 is
not needed by any verified operation and is collapsed. -/
inductive Fl where
  | nan
  | inf (neg : Bool)
  | fin (q : ℚ)
  deriving DecidableEq

/-- IEEE-754 `==` on `Fl`: any comparison involving NaN is false; the
infinities compare by sign; finite values by value. -/
def Fl.ieee_eq : Fl → Fl → Bool
  | .inf s, .inf t => s = t
  | .fin a, .fin b => a = b
  | _, _ => false

/-- IEEE-754 `!=`, as used in `set_values`' `prev_w != watts` test. -/
def Fl.ieee_ne (a b : Fl) : Bool := !(Fl.ieee_eq a b)

/-- `isfinite` from `<math.h>`. -/
def Fl.isfinite : Fl → Bool
  | .fin _ => true
  | _ => false

/-- Whether the value is NaN. -/
def Fl.is_nan : Fl → Bool
  | .nan => true
  | _ => false

/-- Decimal digits of a natural number, as a string. -/
def natDigitsStr (n : Nat) : String := (Nat.toDigits 10 n).asString

/-- Left-pad a string with zeros to width `k`. -/
def padZeros (s : String) (k : Nat) : String :=
  (List.replicate (k - s.length) (Char.ofNat 48)).asString ++ s

/-- Fixed-point decimal rendering of a rational with `prec` fractional
digits, rounding half away from zero: the behaviour of C
`snprintf("%1.*f", prec, x)` on the values exercised here (no claim
exercises a tie, where libc's round-to-nearest-even of the binary
value could differ).  `m = ⌊|q| * 10 ^ prec + 1 / 2⌋` is computed
exactly on the numerator/denominator as
`(2 * |num| * 10 ^ prec + den) / (2 * den)` in `Nat`. -/
def fmtFixed (q : ℚ) (prec : Nat) : String :=
  let m : Nat := (2 * q.num.natAbs * 10 ^ prec + q.den) / (2 * q.den)
  let ip : Nat := m / 10 ^ prec
  let fp : Nat := m % 10 ^ prec
  (if q.num < 0 ∧ m ≠ 0 then "-" else "")
    ++ natDigitsStr ip ++ "." ++ padZeros (natDigitsStr fp) prec

namespace menu

/-- Display geometry constants from `menu.cpp`. -/
def MY_DISPLAY_WIDTH : Nat := 8
/-- `MY_MENU_COLUMN_OFFSET = MY_DISPLAY_WIDTH - 2`. -/
def MY_MENU_COLUMN_OFFSET : Nat := MY_DISPLAY_WIDTH - 2

/-- The program's LCD descriptor (`lcd_cfg` in `my_hal.cpp`): bus-sink
callback present (595 shift register), 5x8 font, 2 lines. -/
def lcd_cfg : my_lcd.hd44780_t :=
  { has_write_cb := true, font := .HD44780_FONT_5X8, lines := 2 }

/-- Right-column unit label `txt_units = "W"`, as character codes. -/
def txt_units : List Nat := [87]
/-- Right-column unit label `txt_units_vlim = "V"`, as character codes. -/
def txt_units_vlim : List Nat := [86]

/-- The `blank` placeholder `"-----"` from `set_values` (5 dashes; the
array is `MY_MENU_COLUMN_OFFSET` bytes including the NUL). -/
def blank : String := "-----"

/-- Localized boot message `boot_initializing` as the byte values the
`R(...)` macro produces (`wch - L'А' + 0xC0`) followed by `"..."`. -/
def boot_initializing : List Nat :=
  [200, 237, 232, 246, 232, 224, 235, 232, 231, 224, 246, 232, 255, 46, 46, 46]

/-- Localized message table `txt_messages`. -/
def txt_messages : List (List Nat) := [boot_initializing]

/-- Characters of a buffer string as the byte values `puts` sends. -/
def strBytes (s : String) : List Nat := s.data.map Char.toNat

/-- The display cache: previous inputs (`static float prev_w/prev_vlim`),
the two text buffers (`watts_buffer`, `vlim_buffer`, 7-byte char
arrays holding at most 6 characters), and the dirty-clear flag. -/
structure MenuSt where
  prev_w : Fl
  prev_vlim : Fl
  watts_buffer : String
  vlim_buffer : String
  have_to_clear : Bool
  deriving DecidableEq

/-- Cache state at boot: the statics are `prev_w = prev_vlim = NAN`,
zero-initialized (empty) buffers, `have_to_clear = true`. -/
def init_state : MenuSt :=
  { prev_w := .nan, prev_vlim := .nan, watts_buffer := "", vlim_buffer := ""
    have_to_clear := true }

/-- Observable events of the menu layer: lock operations on
`repaint_mutex` (`lock_take ok` is `xSemaphoreTake` with its result),
bus transactions, the `ESP_LOGW` warning, and `xTaskNotifyGive` on the
repaint task (a repaint re-request). -/
inductive Ev where
  | lock_take (ok : Bool)
  | lock_give
  | bus (w : Wr)
  | log_warning
  | notify_give
  deriving DecidableEq

/-- The body of `snprintf(buf, 7, "%1.*f", x)`: format and truncate to
the buffer's 6 usable characters. -/
def snprintf_f (q : ℚ) (prec : Nat) : String :=
  (fmtFixed q prec).take (MY_MENU_COLUMN_OFFSET)

/-- `menu::set_values`: under the repaint lock (acquired with result
`lock_ok`; on failure the source still mutates the buffers and, in
`RELEASE_REPAINT_MUTEX`, logs a warning and schedules a repaint),
compute `need_repaint` from IEEE `!=` on the previous input values,
then rewrite both buffers: a finite input is formatted with
`snprintf` (`%1.3f` for watts, `%1.1f` for vlim), a non-finite one is
replaced by the `blank` placeholder.  Returns the updated cache, the
`need_repaint` result and the event trace. -/
def set_values (lock_ok : Bool) (st : MenuSt) (watts vlim : Fl) :
    MenuSt × Bool × List Ev :=
  let need_repaint := Fl.ieee_ne st.prev_w watts || Fl.ieee_ne st.prev_vlim vlim
  let watts_buffer := match watts with
    | .fin q => snprintf_f q 3
    | _ => blank
  let vlim_buffer := match vlim with
    | .fin q => snprintf_f q 1
    | _ => blank
  (⟨watts, vlim, watts_buffer, vlim_buffer, st.have_to_clear⟩,
   need_repaint,
   Ev.lock_take lock_ok ::
     (if lock_ok then [Ev.lock_give] else [Ev.log_warning, Ev.notify_give]))

/-- `menu::print_str`: clear the LCD, write the raw string from the
origin, set `have_to_clear` (driver return values are ignored by the
source). -/
def print_str (ε : bus_oracle) (bst : BusSt) (st : MenuSt) (s : List Nat) :
    BusSt × MenuSt :=
  let bst := (my_lcd.clear lcd_cfg ε bst).1
  let bst := (my_lcd.puts lcd_cfg ε bst s 0).1
  (bst, { st with have_to_clear := true })

/-- `menu::print_message`: under the repaint lock, `print_str` the
localized message and set `have_to_clear`; on lock failure the source
still prints, then logs a warning instead of releasing. -/
def print_message (lock_ok : Bool) (ε : bus_oracle) (bst : BusSt)
    (st : MenuSt) (m : Nat) : BusSt × MenuSt × List Ev :=
  let r := print_str ε bst st (txt_messages.getD m [])
  (r.1, { r.2 with have_to_clear := true },
   Ev.lock_take lock_ok ::
     ((r.1.t.drop bst.t.length).map Ev.bus ++
       (if lock_ok then [Ev.lock_give] else [Ev.log_warning])))

/-- One iteration of `repaint_task_body`'s loop: `notified` is whether
`ulTaskNotifyTake` returned `pdTRUE`; if so the task tries the repaint
mutex (`lock_ok`).  With the lock held it paints from the cache —
full repaint (clear, watts value, "W" label, vlim value, "V" label)
when `have_to_clear` is set, otherwise only the two value fields
(cursor repositioning plus text) — then clears `have_to_clear` and
releases.  When the lock is not acquired, or no notification arrived,
nothing further happens this cycle.  Driver return values are ignored,
as in the source. -/
def repaint_cycle (ε : bus_oracle) (notified lock_ok : Bool)
    (bst : BusSt) (st : MenuSt) : BusSt × MenuSt × List Ev :=
  if notified then
    if lock_ok then
      let b1 := if st.have_to_clear then (my_lcd.clear lcd_cfg ε bst).1
                else (my_lcd.gotoxy lcd_cfg ε bst 0 0).1
      let b2 := (my_lcd.puts lcd_cfg ε b1 (strBytes st.watts_buffer) 0).1
      let b3 := if st.have_to_clear then
                  let x := (my_lcd.gotoxy lcd_cfg ε b2 MY_MENU_COLUMN_OFFSET 0).1
                  (my_lcd.puts lcd_cfg ε x txt_units 0).1
                else b2
      let b4 := (my_lcd.gotoxy lcd_cfg ε b3 0 1).1
      let b5 := (my_lcd.puts lcd_cfg ε b4 (strBytes st.vlim_buffer) 0).1
      let b6 := if st.have_to_clear then
                  let x := (my_lcd.gotoxy lcd_cfg ε b5 MY_MENU_COLUMN_OFFSET 1).1
                  (my_lcd.puts lcd_cfg ε x txt_units_vlim 0).1
                else b5
      (b6, { st with have_to_clear := false },
       Ev.lock_take true :: ((b6.t.drop bst.t.length).map Ev.bus ++ [Ev.lock_give]))
    else (bst, st, [Ev.lock_take false])
  else (bst, st, [])

end menu

/-!
Trace analysis helpers (spec-side observations over event traces).
-/

/-- The bus transactions occurring in a trace. -/
def bus_writes : List menu.Ev → List Wr
  | [] => []
  | .bus w :: r => w :: bus_writes r
  | _ :: r => bus_writes r

/-- Whether some bus transaction occurs while the lock is held (`held`
is whether the lock is held before the trace). -/
def bus_while_locked : List menu.Ev → Bool → Bool
  | [], _ => false
  | .lock_take ok :: r, _ => bus_while_locked r ok
  | .lock_give :: r, _ => bus_while_locked r false
  | .bus _ :: r, held => held || bus_while_locked r held
  | _ :: r, held => bus_while_locked r held

/-- Whether some bus transaction occurs while the lock is NOT held. -/
def bus_while_unlocked : List menu.Ev → Bool → Bool
  | [], _ => false
  | .lock_take ok :: r, _ => bus_while_unlocked r ok
  | .lock_give :: r, _ => bus_while_unlocked r false
  | .bus _ :: r, held => !held || bus_while_unlocked r held
  | _ :: r, held => bus_while_unlocked r held

/-- DDRAM addresses that receive a data write, for a transaction list
containing only data writes, set-DDRAM-address commands and clear
(sufficient for the repaint traces, which never address CGRAM): a
data write targets the current address counter and auto-increments it
(7-bit counter, entry mode `increment` as configured by `init`);
a set-DDRAM command loads the counter; clear homes it. -/
def ddram_writes : List Wr → Nat → List Nat
  | [], _ => []
  | w :: r, a =>
    if w.rs then a :: ddram_writes r ((a + 1) % 128)
    else if my_lcd.CMD_DDRAM_ADDR ≤ w.b then
      ddram_writes r (w.b - my_lcd.CMD_DDRAM_ADDR)
    else if w.b = my_lcd.CMD_CLEAR then ddram_writes r 0
    else ddram_writes r a

/-!
Helper lemmas shared by the claim theorems.
-/

/-- The always-succeeding bus oracle. -/
def ε_ok : bus_oracle := fun _ => none

/-- The attempt counter advances by one per `write_byte`, whether or not
the transaction succeeds. -/
lemma write_byte_fst_n (ε : bus_oracle) (st : BusSt) (b : Nat) (rs : Bool) :
    ((my_lcd.write_byte ε st b rs).1).n = st.n + 1 := by
  cases h : ε st.n <;> simp [my_lcd.write_byte, h]

/-- `puts` on an always-succeeding bus appends one data write per
character. -/
lemma puts_ok (lcd : my_lcd.hd44780_t) (st : BusSt) (s : List Nat) (cp : Nat) :
    my_lcd.puts lcd ε_ok st s cp =
      (⟨st.t ++ s.map (fun c => ⟨(c + cp) % 256, true⟩), st.n + s.length⟩, none) := by
  induction s generalizing st with
  | nil => simp [my_lcd.puts]
  | cons c rest ih =>
    simp [my_lcd.puts, my_lcd.putc, my_lcd.write_byte, ε_ok, chk, ih,
      Nat.add_assoc, Nat.add_comm 1 rest.length]

/-- `write_data_list` under an all-success oracle appends one data write
per byte. -/
lemma write_data_list_ok (ε : bus_oracle) (hε : ∀ i, ε i = none) (st : BusSt)
    (l : List Nat) :
    my_lcd.write_data_list ε st l =
      (⟨st.t ++ l.map (fun b => ⟨b % 256, true⟩), st.n + l.length⟩, none) := by
  induction l generalizing st with
  | nil => simp [my_lcd.write_data_list]
  | cons b rest ih =>
    simp [my_lcd.write_data_list, my_lcd.write_byte, hε, chk, ih,
      Nat.add_assoc, Nat.add_comm 1 rest.length]

/-- General form of `puts_ok` for any oracle succeeding on the relevant
attempt indices. -/
lemma puts_all_ok (lcd : my_lcd.hd44780_t) (ε : bus_oracle) (hε : ∀ i, ε i = none)
    (st : BusSt) (s : List Nat) (cp : Nat) :
    my_lcd.puts lcd ε st s cp =
      (⟨st.t ++ s.map (fun c => ⟨(c + cp) % 256, true⟩), st.n + s.length⟩, none) := by
  induction s generalizing st with
  | nil => simp [my_lcd.puts]
  | cons c rest ih =>
    simp [my_lcd.puts, my_lcd.putc, my_lcd.write_byte, hε, chk, ih,
      Nat.add_assoc, Nat.add_comm 1 rest.length]

/-!
Claim theorems for the LCD driver layer.
-/

/-- C2: for a line accepted by the argument check (`line < lcd->lines`,
`line < 4`), `gotoxy` issues exactly one set-DDRAM-address command whose
byte is `0x80 + a + col` (as `uint8_t`), where `a` is taken per line
from the fixed table `{0x00, 0x40, 0x14, 0x54}` — not computed linearly
from the line number. -/
theorem gotoxy_uses_line_addr_table (lcd : my_lcd.hd44780_t) (ε : bus_oracle)
    (st : BusSt) (col line : Nat)
    (hline : line < lcd.lines) (h4 : line < 4) (hε : ε st.n = none) :
    my_lcd.gotoxy lcd ε st col line =
      (⟨st.t ++
          [⟨(0x80 + [0x00, 0x40, 0x14, 0x54].getD line 0 + col) % 256, false⟩],
        st.n + 1⟩, none) := by
  have h : line < my_lcd.line_addr.length := by
    simpa [my_lcd.line_addr] using h4
  simp [my_lcd.gotoxy, my_lcd.write_byte, hline, h4, h, hε, my_lcd.line_addr,
    my_lcd.CMD_DDRAM_ADDR]

/-- Witness for C2: on a 4-line descriptor, `gotoxy(col 3, line 2)`
issues the byte `0x80 + 0x14 + 3 = 0x97`. -/
theorem gotoxy_uses_line_addr_table_witness :
    my_lcd.gotoxy ⟨true, .HD44780_FONT_5X8, 4⟩ (fun _ => none) ⟨[], 0⟩ 3 2 =
      (⟨[⟨0x97, false⟩], 1⟩, none) :=
  (gotoxy_uses_line_addr_table ⟨true, .HD44780_FONT_5X8, 4⟩ (fun _ => none)
    ⟨[], 0⟩ 3 2 (by decide) (by decide) rfl).trans (by decide)

/-- C10: whenever the requested line is not below the descriptor's line
count or not below the 4-entry table, `gotoxy` returns
`ESP_ERR_INVALID_ARG` and performs no bus write (the bus state is
returned untouched). -/
theorem gotoxy_rejects_out_of_range (lcd : my_lcd.hd44780_t) (ε : bus_oracle)
    (st : BusSt) (col line : Nat)
    (h : lcd.lines ≤ line ∨ 4 ≤ line) :
    my_lcd.gotoxy lcd ε st col line = (st, some .invalid_arg) := by
  have hneg : ¬(line < lcd.lines ∧ line < my_lcd.line_addr.length) := by
    simp only [my_lcd.line_addr, List.length_cons, List.length_nil]
    omega
  simp [my_lcd.gotoxy, hneg]

/-- Witness for C10: on the program's 2-line descriptor, lines 2 and 3
are rejected without any bus write. -/
theorem gotoxy_rejects_out_of_range_witness :
    my_lcd.gotoxy menu.lcd_cfg (fun _ => none) ⟨[], 0⟩ 0 2 =
      (⟨[], 0⟩, some .invalid_arg)
    ∧ my_lcd.gotoxy menu.lcd_cfg (fun _ => none) ⟨[], 0⟩ 7 3 =
      (⟨[], 0⟩, some .invalid_arg) :=
  ⟨gotoxy_rejects_out_of_range menu.lcd_cfg (fun _ => none) ⟨[], 0⟩ 0 2
      (Or.inl (by decide)),
   gotoxy_rejects_out_of_range menu.lcd_cfg (fun _ => none) ⟨[], 0⟩ 7 3
      (Or.inl (by decide))⟩

/-- C6: when the bus succeeds on the first `k` data writes and fails on
the `k`-th (0-based) with error `e`, `puts` sends exactly the first `k`
characters (which stay latched), aborts with `e`, sends nothing at or
after the failing position, and makes exactly `k + 1` attempts (no
retry). -/
theorem puts_stops_at_first_bus_error (lcd : my_lcd.hd44780_t)
    (ε : bus_oracle) (st : BusSt) (s : List Nat) (cp : Nat) (k : Nat)
    (e : esp_err_t) (hk : k < s.length)
    (hok : ∀ i, i < k → ε (st.n + i) = none)
    (hf : ε (st.n + k) = some e) :
    my_lcd.puts lcd ε st s cp =
      (⟨st.t ++ (s.take k).map (fun c => ⟨(c + cp) % 256, true⟩),
        st.n + k + 1⟩, some e) := by
  induction s generalizing st k with
  | nil => simp at hk
  | cons c rest ih =>
    cases k with
    | zero =>
      have hf0 : ε st.n = some e := by simpa using hf
      simp [my_lcd.puts, my_lcd.putc, my_lcd.write_byte, hf0, chk]
    | succ k =>
      have h0 : ε st.n = none := by simpa using hok 0 (Nat.succ_pos k)
      have step :
          my_lcd.puts lcd ε st (c :: rest) cp =
            my_lcd.puts lcd ε
              ⟨st.t ++ [⟨(c + cp) % 256, true⟩], st.n + 1⟩ rest cp := by
        simp [my_lcd.puts, my_lcd.putc, my_lcd.write_byte, h0, chk]
      refine step.trans ((ih _ k (by simpa using hk) ?_ ?_).trans ?_)
      · intro i hi
        have := hok (i + 1) (by omega)
        simpa [Nat.add_assoc, Nat.add_comm 1 i] using this
      · simpa [Nat.add_assoc, Nat.add_comm 1 k] using hf
      · simp [Nat.add_assoc, Nat.add_comm 1 k]

/-- Witness for C6: writing `"abc"` over a bus that fails on attempt 1
sends only `'a'`, aborts with the bus error, and makes two attempts. -/
theorem puts_stops_at_first_bus_error_witness :
    my_lcd.puts menu.lcd_cfg
      (fun i => if i = 1 then some (.bus_fail 7) else none) ⟨[], 0⟩
      [97, 98, 99] 0 =
      (⟨[⟨97, true⟩], 2⟩, some (.bus_fail 7)) :=
  (puts_stops_at_first_bus_error menu.lcd_cfg
      (fun i => if i = 1 then some (.bus_fail 7) else none) ⟨[], 0⟩
      [97, 98, 99] 0 1 (.bus_fail 7) (by decide)
      (fun i hi => by interval_cases i; rfl) rfl).trans (by decide)

/-- C7: for `num < 8` on a working bus and a usable descriptor
(`lines > 0`, needed by the final `gotoxy`), `upload_character` writes
the CGRAM address `num * bytes`, then exactly `bytes` glyph bytes
(`bytes = 8` for the 5x8 font, 10 for 5x10), and ends with the
set-DDRAM-address command for position (0,0) (byte `0x80`); for
`num ≥ 8` it returns `ESP_ERR_INVALID_ARG` with no bus write. -/
theorem upload_character_glyph_bytes (lcd : my_lcd.hd44780_t)
    (ε : bus_oracle) (st : BusSt) (num : Nat) (data : Nat → Nat)
    (hl : 0 < lcd.lines) (hε : ∀ i, ε i = none) :
    (num < 8 →
      my_lcd.upload_character lcd ε st num data =
        (⟨st.t ++
            ⟨(0x40 + num * (if lcd.font = .HD44780_FONT_5X8 then 8 else 10)) % 256,
              false⟩ ::
            (((List.range (if lcd.font = .HD44780_FONT_5X8 then 8 else 10)).map
                data).map (fun b => ⟨b % 256, true⟩) ++ [⟨0x80, false⟩]),
          st.n + ((if lcd.font = .HD44780_FONT_5X8 then 8 else 10) + 2)⟩, none))
    ∧ (8 ≤ num →
        my_lcd.upload_character lcd ε st num data = (st, some .invalid_arg)) := by
  constructor
  · intro hnum
    have h0 : (0 : Nat) < my_lcd.line_addr.length := by decide
    simp [my_lcd.upload_character, hnum, chk, my_lcd.write_byte, hε,
      write_data_list_ok ε hε, my_lcd.gotoxy, hl, h0, my_lcd.line_addr,
      my_lcd.CMD_CGRAM_ADDR, my_lcd.CMD_DDRAM_ADDR]
    omega
  · intro hnum
    have : ¬num < 8 := by omega
    simp [my_lcd.upload_character, this]

/-- Witness for C7: slot 2 on the program's 5x8 descriptor uploads 8
bytes at CGRAM offset 16 and homes the cursor; slot 8 is rejected. -/
theorem upload_character_glyph_bytes_witness :
    my_lcd.upload_character menu.lcd_cfg ε_ok ⟨[], 0⟩ 2 (fun i => i) =
      (⟨⟨0x50, false⟩ ::
          ([⟨0, true⟩, ⟨1, true⟩, ⟨2, true⟩, ⟨3, true⟩, ⟨4, true⟩,
            ⟨5, true⟩, ⟨6, true⟩, ⟨7, true⟩] ++ [⟨0x80, false⟩]), 10⟩, none)
    ∧ my_lcd.upload_character menu.lcd_cfg ε_ok ⟨[], 0⟩ 8 (fun i => i) =
      (⟨[], 0⟩, some .invalid_arg) :=
  ⟨((upload_character_glyph_bytes menu.lcd_cfg ε_ok ⟨[], 0⟩ 2 (fun i => i)
      (by decide) (fun i => rfl)).1 (by decide)).trans (by decide),
   (upload_character_glyph_bytes menu.lcd_cfg ε_ok ⟨[], 0⟩ 8 (fun i => i)
      (by decide) (fun i => rfl)).2 (by decide)⟩

/-- The error result of `init`'s `CHECK`ed command chain (function set,
display off, clear, entry mode, display on) is the first failure among
its five consecutive attempt indices. -/
lemma init_checked_tail_err (lcd : my_lcd.hd44780_t) (ε : bus_oracle)
    (st : BusSt) (page : Nat) :
    (my_lcd.init_checked_tail lcd ε st page).2 =
      (ε st.n <|> ε (st.n + 1) <|> ε (st.n + 2) <|> ε (st.n + 3) <|>
        ε (st.n + 4)) := by
  cases h0 : ε st.n with
  | some e =>
    simp [my_lcd.init_checked_tail, my_lcd.set_function, my_lcd.write_byte,
      chk, h0]
  | none =>
    cases h1 : ε (st.n + 1) with
    | some e =>
      simp [my_lcd.init_checked_tail, my_lcd.set_function, my_lcd.control,
        my_lcd.write_byte, chk, h0, h1]
    | none =>
      cases h2 : ε (st.n + 2) with
      | some e =>
        simp [my_lcd.init_checked_tail, my_lcd.set_function, my_lcd.control,
          my_lcd.clear, my_lcd.write_byte, chk, h0, h1, h2]
      | none =>
        cases h3 : ε (st.n + 3) with
        | some e =>
          simp [my_lcd.init_checked_tail, my_lcd.set_function, my_lcd.control,
            my_lcd.clear, my_lcd.write_byte, chk, h0, h1, h2, h3,
            Nat.add_assoc]
        | none =>
          cases h4 : ε (st.n + 4) with
          | some e =>
            simp [my_lcd.init_checked_tail, my_lcd.set_function,
              my_lcd.control, my_lcd.clear, my_lcd.write_byte, chk, h0, h1,
              h2, h3, h4, Nat.add_assoc]
          | none =>
            simp [my_lcd.init_checked_tail, my_lcd.set_function,
              my_lcd.control, my_lcd.clear, my_lcd.write_byte, chk, h0, h1,
              h2, h3, h4, Nat.add_assoc]

/-- Counterexample to C8: a bus failure on the very first warm-up
function-set write (attempt 0) is NOT propagated — with every later
transaction succeeding, `init` on the program's descriptor still
returns `ESP_OK` (the 8-bit warm-up loop calls `write_byte` without
`CHECK`). -/
theorem init_ignores_warmup_failure :
    my_lcd.init menu.lcd_cfg none
      (fun i => if i = 0 then some (.bus_fail 7) else none) ⟨[], 0⟩ 0 =
      (⟨[⟨0x30, false⟩, ⟨0x30, false⟩, ⟨0x28, false⟩, ⟨0x08, false⟩,
          ⟨0x01, false⟩, ⟨0x06, false⟩, ⟨0x0C, false⟩], 8⟩, none) := by
  decide

/-- C8 (amended): `init` fails with `ESP_ERR_INVALID_ARG` when the line
count is 0 or greater than 4; otherwise (for a descriptor with a
bus-sink callback, as in this program) its result is the first
bus-level failure among the five `CHECK`ed commands it issues AFTER
the warm-up phase — attempt indices 3..7 relative to the start; the
results of the three warm-up function-set writes (indices 0..2) are
discarded and never affect the outcome. -/
theorem init_invalid_arg_and_checked_propagation (lcd : my_lcd.hd44780_t)
    (gpio_cfg : Option esp_err_t) (ε : bus_oracle) (st : BusSt) (page : Nat)
    (hcb : lcd.has_write_cb = true) :
    ((lcd.lines = 0 ∨ 5 ≤ lcd.lines) →
      my_lcd.init lcd gpio_cfg ε st page = (st, some .invalid_arg))
    ∧ (0 < lcd.lines → lcd.lines < 5 →
        (my_lcd.init lcd gpio_cfg ε st page).2 =
          (ε (st.n + 3) <|> ε (st.n + 4) <|> ε (st.n + 5) <|> ε (st.n + 6) <|>
            ε (st.n + 7))) := by
  constructor
  · intro h
    have hneg : ¬(0 < lcd.lines ∧ lcd.lines < 5) := by omega
    simp [my_lcd.init, hneg]
  · intro h0 h5
    rw [my_lcd.init, if_pos ⟨h0, h5⟩, hcb]
    show (my_lcd.init_checked_tail lcd ε _ page).2 = _
    rw [init_checked_tail_err]
    simp [write_byte_fst_n, Nat.add_assoc]

/-- Witness for C8 (amended): a zero-line descriptor is rejected, and on
the program's descriptor a failure injected at attempt 5 (the `clear`
command, the third checked command after warm-up) is the returned
error. -/
theorem init_invalid_arg_and_checked_propagation_witness :
    my_lcd.init ⟨true, .HD44780_FONT_5X8, 0⟩ none ε_ok ⟨[], 0⟩ 0 =
      (⟨[], 0⟩, some .invalid_arg)
    ∧ (my_lcd.init menu.lcd_cfg none
        (fun i => if i = 5 then some (.bus_fail 3) else none) ⟨[], 0⟩ 0).2 =
      some (.bus_fail 3) :=
  ⟨(init_invalid_arg_and_checked_propagation ⟨true, .HD44780_FONT_5X8, 0⟩
      none ε_ok ⟨[], 0⟩ 0 rfl).1 (Or.inl rfl),
   ((init_invalid_arg_and_checked_propagation menu.lcd_cfg none
      (fun i => if i = 5 then some (.bus_fail 3) else none) ⟨[], 0⟩ 0 rfl).2
      (by decide) (by decide)).trans (by decide)⟩

/-!
Claim theorems for the menu layer.
-/

/-- Counterexample to C4: repeating `set_values(NaN, 5.0)` with identical
inputs does NOT report "no change" — the second call returns `true`,
because the change test `prev_w != watts` uses IEEE `!=`, and
`NaN != NaN` holds. -/
theorem set_values_nan_repeat_reports_change :
    (menu.set_values true
        (menu.set_values true menu.init_state .nan (.fin 5)).1
        .nan (.fin 5)).2.1 = true := by
  decide

/-- C4 (amended): repeating `set_values` with identical inputs leaves the
whole cache state — in particular both buffers — unchanged, and the
second call reports "no change" (`false`) exactly when neither input
is NaN; with a NaN input it reports a change (`true`), since the
detection uses IEEE `!=` on the stored previous inputs. -/
theorem set_values_repeat_state_and_change (lock_ok lock_ok' : Bool)
    (st : menu.MenuSt) (w v : Fl) :
    (menu.set_values lock_ok'
        (menu.set_values lock_ok st w v).1 w v).1 =
      (menu.set_values lock_ok st w v).1
    ∧ (menu.set_values lock_ok'
        (menu.set_values lock_ok st w v).1 w v).2.1 =
      (w.is_nan || v.is_nan) := by
  cases w <;> cases v <;>
    simp [menu.set_values, Fl.ieee_ne, Fl.ieee_eq, Fl.is_nan]

/-- C5: `set_values(NaN, 5.0)` stores the dash placeholder and `"5.0"`;
`set_values(1.234, NaN)` stores `"1.234"` and the placeholder;
infinite inputs also store the placeholder (the "no reading
available" rendering of any non-finite value). -/
theorem set_values_formatting_examples :
    ((menu.set_values true menu.init_state .nan (.fin 5)).1.watts_buffer =
        "-----"
      ∧ (menu.set_values true menu.init_state .nan (.fin 5)).1.vlim_buffer =
        "5.0")
    ∧ ((menu.set_values true menu.init_state
          (.fin (mkRat 1234 1000)) .nan).1.watts_buffer = "1.234"
      ∧ (menu.set_values true menu.init_state
          (.fin (mkRat 1234 1000)) .nan).1.vlim_buffer = "-----")
    ∧ ((menu.set_values true menu.init_state
          (.inf false) (.inf true)).1.watts_buffer = "-----"
      ∧ (menu.set_values true menu.init_state
          (.inf false) (.inf true)).1.vlim_buffer = "-----") := by
  decide

/-- Counterexample to C9: when the repaint task wakes on a notification
(`notified = true`) but the lock acquisition times out
(`lock_ok = false`), the cycle's entire observable behaviour is the
failed lock take — no repaint re-request (`notify_give`) and no
warning are produced: the consumed notification is silently dropped. -/
theorem repaint_lock_timeout_drops_request :
    (menu.repaint_cycle ε_ok true false ⟨[], 0⟩ menu.init_state).2.2 =
      [menu.Ev.lock_take false]
    ∧ menu.Ev.notify_give ∉
        (menu.repaint_cycle ε_ok true false ⟨[], 0⟩ menu.init_state).2.2
    ∧ menu.Ev.log_warning ∉
        (menu.repaint_cycle ε_ok true false ⟨[], 0⟩ menu.init_state).2.2 := by
  decide

/-- C9 (amended): whenever the repaint task wakes on a notification but
cannot acquire the cache lock within its timeout, the repaint is
abandoned for that cycle and the already-consumed notification is
dropped: the task performs no bus write, changes no state, re-requests
nothing and logs nothing.  (The log-and-re-request recovery described
by the spec lives in the `RELEASE_REPAINT_MUTEX` macro used by the
buffer writers, not in `repaint_task_body`.) -/
theorem repaint_lock_timeout_aborts_silently (ε : bus_oracle) (bst : BusSt)
    (st : menu.MenuSt) :
    menu.repaint_cycle ε true false bst st =
      (bst, st, [menu.Ev.lock_take false]) := rfl

/-- Bus events do not affect the unlocked-bus-I/O check while the lock is
held. -/
lemma bus_while_unlocked_append_bus (tr r : List menu.Ev)
    (h : ∀ e ∈ tr, ∃ x, e = menu.Ev.bus x) :
    bus_while_unlocked (tr ++ r) true = bus_while_unlocked r true := by
  induction tr with
  | nil => rfl
  | cons e rest ih =>
    obtain ⟨x, rfl⟩ := h e (by simp)
    simpa [bus_while_unlocked] using ih (fun e he => h e (by simp [he]))

/-- The shape of a lock-acquiring repaint cycle's trace: the lock take,
the bus transactions, the lock release. -/
lemma repaint_cycle_trace (ε : bus_oracle) (bst : BusSt) (st : menu.MenuSt) :
    (menu.repaint_cycle ε true true bst st).2.2 =
      menu.Ev.lock_take true ::
        ((((menu.repaint_cycle ε true true bst st).1.t.drop
            bst.t.length).map menu.Ev.bus) ++ [menu.Ev.lock_give]) := rfl

/-- The shape of a lock-acquiring `print_message` trace. -/
lemma print_message_trace (ε : bus_oracle) (bst : BusSt) (st : menu.MenuSt)
    (m : Nat) :
    (menu.print_message true ε bst st m).2.2 =
      menu.Ev.lock_take true ::
        ((((menu.print_message true ε bst st m).1.t.drop
            bst.t.length).map menu.Ev.bus) ++ [menu.Ev.lock_give]) := rfl

/-- The shape of a `print_message` trace when the lock acquisition timed
out: the source still prints (the bus events), then logs instead of
releasing. -/
lemma print_message_trace_nolock (ε : bus_oracle) (bst : BusSt)
    (st : menu.MenuSt) (m : Nat) :
    (menu.print_message false ε bst st m).2.2 =
      menu.Ev.lock_take false ::
        ((((menu.print_message false ε bst st m).1.t.drop
            bst.t.length).map menu.Ev.bus) ++ [menu.Ev.log_warning]) := rfl

/-- Bus events do not affect the locked-bus-I/O check while the lock is
not held. -/
lemma bus_while_locked_append_bus (tr r : List menu.Ev)
    (h : ∀ e ∈ tr, ∃ x, e = menu.Ev.bus x) :
    bus_while_locked (tr ++ r) false = bus_while_locked r false := by
  induction tr with
  | nil => rfl
  | cons e rest ih =>
    obtain ⟨x, rfl⟩ := h e (by simp)
    simpa [bus_while_locked] using ih (fun e he => h e (by simp [he]))

/-- Counterexample to C3: in a repaint cycle that acquires the lock (from
boot state, so a full redraw), bus transactions DO occur while the
repaint mutex is held — bus I/O is not moved outside the lock scope. -/
theorem repaint_bus_io_happens_under_lock :
    bus_while_locked
      (menu.repaint_cycle ε_ok true true ⟨[], 0⟩ menu.init_state).2.2 false =
      true := by
  decide

/-- C3 (amended): the repaint mutex IS held across the driver bus I/O in
the repaint task — every repaint cycle does all its bus I/O inside the
lock scope (a lock timeout produces no bus I/O at all), because the
cached buffers are consumed in place rather than copied out.
`print_message` does its bus I/O inside the lock scope when the
acquisition succeeds, but on a lock timeout it performs the same bus
I/O entirely OUTSIDE the lock (`print_str` runs unconditionally after
the failed take): no bus event is under the lock then, and from boot
state the unlocked bus I/O really occurs.  `set_values` performs no
bus I/O at all under the lock. -/
theorem bus_io_lock_discipline (ε : bus_oracle) (bst : BusSt)
    (st : menu.MenuSt) (w v : Fl) (m : Nat) (lock_ok : Bool) :
    bus_while_unlocked (menu.repaint_cycle ε true lock_ok bst st).2.2 false =
      false
    ∧ bus_while_unlocked (menu.print_message true ε bst st m).2.2 false =
      false
    ∧ bus_while_locked (menu.print_message false ε bst st m).2.2 false =
      false
    ∧ bus_while_unlocked
        (menu.print_message false ε_ok ⟨[], 0⟩ menu.init_state 0).2.2 false =
      true
    ∧ bus_writes (menu.set_values lock_ok st w v).2.2 = [] := by
  refine ⟨?_, ?_, ?_, by decide, ?_⟩
  · cases lock_ok with
    | false => rfl
    | true =>
      rw [repaint_cycle_trace]
      simp only [bus_while_unlocked]
      rw [bus_while_unlocked_append_bus _ _
        (fun e he => by rcases List.mem_map.1 he with ⟨x, _, rfl⟩; exact ⟨x, rfl⟩)]
      rfl
  · rw [print_message_trace]
    simp only [bus_while_unlocked]
    rw [bus_while_unlocked_append_bus _ _
      (fun e he => by rcases List.mem_map.1 he with ⟨x, _, rfl⟩; exact ⟨x, rfl⟩)]
    rfl
  · rw [print_message_trace_nolock]
    simp only [bus_while_locked]
    rw [bus_while_locked_append_bus _ _
      (fun e he => by rcases List.mem_map.1 he with ⟨x, _, rfl⟩; exact ⟨x, rfl⟩)]
    rfl
  · cases lock_ok <;> rfl

/-- Data writes that `puts` produces for a buffer string (codepage
offset 0). -/
def data_writes (s : String) : List Wr :=
  (menu.strBytes s).map (fun c => ⟨c % 256, true⟩)

/-- Extracting the bus transactions of a trace that starts with bus
events. -/
lemma bus_writes_map_bus (l : List Wr) (r : List menu.Ev) :
    bus_writes (l.map menu.Ev.bus ++ r) = l ++ bus_writes r := by
  induction l with
  | nil => rfl
  | cons x rest ih => simp [bus_writes, ih]

/-- A run of consecutive data writes starting at address counter `a`
targets exactly the addresses `a, a+1, ..., a+len-1`. -/
lemma ddram_writes_data_run (l : List Nat) (r : List Wr) (a : Nat)
    (h : a + l.length < 128) :
    ddram_writes (l.map (fun c => ⟨c % 256, true⟩) ++ r) a =
      List.range' a l.length ++ ddram_writes r (a + l.length) := by
  induction l generalizing a with
  | nil => simp
  | cons c rest ih =>
    have hlt : a + 1 < 128 := by simp at h; omega
    have h1 : (a + 1) % 128 = a + 1 := Nat.mod_eq_of_lt hlt
    have hr : a + 1 + rest.length < 128 := by simp at h; omega
    simp [ddram_writes, h1, ih (a + 1) hr, List.range',
      Nat.add_assoc, Nat.add_comm 1 rest.length]

/-- A lock-wrapped run of bus events contains exactly those bus
transactions. -/
lemma bus_writes_lock_wrap (l : List Wr) :
    bus_writes (menu.Ev.lock_take true ::
      (l.map menu.Ev.bus ++ [menu.Ev.lock_give])) = l := by
  have h : bus_writes [menu.Ev.lock_give] = [] := rfl
  show bus_writes (l.map menu.Ev.bus ++ [menu.Ev.lock_give]) = l
  rw [bus_writes_map_bus, h, List.append_nil]

/-- The (0,0) set-DDRAM command homes the address counter. -/
lemma ddram_writes_goto_origin (r : List Wr) (a : Nat) :
    ddram_writes (⟨0x80, false⟩ :: r) a = ddram_writes r 0 := rfl

/-- The (0,1) set-DDRAM command loads address 0x40. -/
lemma ddram_writes_goto_line1 (r : List Wr) (a : Nat) :
    ddram_writes (⟨0xC0, false⟩ :: r) a = ddram_writes r 0x40 := rfl

/-- A trailing run of data writes targets `a .. a+len-1`. -/
lemma ddram_writes_data_only (l : List Nat) (a : Nat) (h : a + l.length < 128) :
    ddram_writes (l.map (fun c => ⟨c % 256, true⟩)) a =
      List.range' a l.length := by
  have h2 := ddram_writes_data_run l [] a h
  simpa [show ddram_writes [] (a + l.length) = [] from rfl] using h2

/-- `strBytes` preserves the string length. -/
lemma strBytes_length (s : String) : (menu.strBytes s).length = s.length := by
  rw [menu.strBytes, List.length_map]
  rfl

/-- Bus transactions of a full-redraw repaint cycle (`have_to_clear`
set, lock acquired, all transactions succeeding): clear first, then
the watts field, the "W" label at (6,0), the vlim field at (0,1) and
the "V" label at (6,1). -/
lemma repaint_cycle_full_trace (pw pv : Fl) (wb vb : String) :
    (menu.repaint_cycle ε_ok true true ⟨[], 0⟩ ⟨pw, pv, wb, vb, true⟩).2.2 =
      menu.Ev.lock_take true ::
        ((⟨0x01, false⟩ :: (data_writes wb ++ ⟨0x86, false⟩ :: ⟨87, true⟩ ::
            ⟨0xC0, false⟩ :: (data_writes vb ++ [⟨0xC6, false⟩, ⟨86, true⟩]))).map
              menu.Ev.bus ++ [menu.Ev.lock_give]) := by
  simp [menu.repaint_cycle, menu.lcd_cfg, my_lcd.clear, my_lcd.gotoxy,
    my_lcd.write_byte, ε_ok, puts_ok, chk, menu.strBytes, menu.txt_units,
    menu.txt_units_vlim, menu.MY_MENU_COLUMN_OFFSET, menu.MY_DISPLAY_WIDTH,
    my_lcd.line_addr, data_writes, my_lcd.CMD_DDRAM_ADDR, my_lcd.CMD_CLEAR]

/-- Bus transactions of a value-only repaint cycle (`have_to_clear`
clear): cursor to (0,0), watts field, cursor to (0,1), vlim field —
nothing else. -/
lemma repaint_cycle_value_trace (pw pv : Fl) (wb vb : String) :
    (menu.repaint_cycle ε_ok true true ⟨[], 0⟩ ⟨pw, pv, wb, vb, false⟩).2.2 =
      menu.Ev.lock_take true ::
        ((⟨0x80, false⟩ :: (data_writes wb ++ ⟨0xC0, false⟩ :: data_writes vb)).map
          menu.Ev.bus ++ [menu.Ev.lock_give]) := by
  simp [menu.repaint_cycle, menu.lcd_cfg, my_lcd.clear, my_lcd.gotoxy,
    my_lcd.write_byte, ε_ok, puts_ok, chk, menu.strBytes, menu.txt_units,
    menu.txt_units_vlim, menu.MY_MENU_COLUMN_OFFSET, menu.MY_DISPLAY_WIDTH,
    my_lcd.line_addr, data_writes, my_lcd.CMD_DDRAM_ADDR, my_lcd.CMD_CLEAR]

/-- DDRAM addresses written by the value-only repaint trace: the two
value runs starting at 0x00 and 0x40. -/
lemma value_trace_ddram (wb vb : String) (a0 : Nat)
    (hw : wb.length ≤ 6) (hv : vb.length ≤ 6) :
    ddram_writes (bus_writes
      (menu.Ev.lock_take true ::
        ((⟨0x80, false⟩ :: (data_writes wb ++ ⟨0xC0, false⟩ :: data_writes vb)).map
          menu.Ev.bus ++ [menu.Ev.lock_give]))) a0 =
      List.range' 0 wb.length ++ List.range' 0x40 vb.length := by
  have hwl := strBytes_length wb
  have hvl := strBytes_length vb
  rw [bus_writes_lock_wrap, ddram_writes_goto_origin]
  simp only [data_writes]
  rw [ddram_writes_data_run _ _ 0 (by omega), ddram_writes_goto_line1,
    ddram_writes_data_only _ _ (by omega), hwl, hvl]

/-- C1: a repaint cycle that acquires the lock with the dirty-clear flag
set issues the clear command as its very first bus transaction —
before any text write — and then redraws the watts value field, the
static "W" label at (6,0), the vlim value field and the static "V"
label at (6,1); with the flag clear, it only repositions the cursor
and rewrites the two value fields, and no data write targets a label
DDRAM address (0x06 or 0x46) — for any cached buffer contents within
the buffers' 6-character capacity and any prior address counter. -/
theorem repaint_full_redraw_vs_value_only (pw pv : Fl) (wb vb : String)
    (a0 : Nat) (hw : wb.length ≤ 6) (hv : vb.length ≤ 6) :
    ((menu.repaint_cycle ε_ok true true ⟨[], 0⟩ ⟨pw, pv, wb, vb, true⟩).2.2 =
      menu.Ev.lock_take true ::
        ((⟨0x01, false⟩ :: (data_writes wb ++ ⟨0x86, false⟩ :: ⟨87, true⟩ ::
            ⟨0xC0, false⟩ :: (data_writes vb ++ [⟨0xC6, false⟩, ⟨86, true⟩]))).map
              menu.Ev.bus ++ [menu.Ev.lock_give]))
    ∧ ((menu.repaint_cycle ε_ok true true ⟨[], 0⟩ ⟨pw, pv, wb, vb, false⟩).2.2 =
      menu.Ev.lock_take true ::
        ((⟨0x80, false⟩ :: (data_writes wb ++ ⟨0xC0, false⟩ :: data_writes vb)).map
          menu.Ev.bus ++ [menu.Ev.lock_give]))
    ∧ 0x06 ∉ ddram_writes (bus_writes
        (menu.repaint_cycle ε_ok true true ⟨[], 0⟩
          ⟨pw, pv, wb, vb, false⟩).2.2) a0
    ∧ 0x46 ∉ ddram_writes (bus_writes
        (menu.repaint_cycle ε_ok true true ⟨[], 0⟩
          ⟨pw, pv, wb, vb, false⟩).2.2) a0 := by
  refine ⟨repaint_cycle_full_trace pw pv wb vb,
    repaint_cycle_value_trace pw pv wb vb, ?_, ?_⟩
  all_goals
    rw [repaint_cycle_value_trace, value_trace_ddram wb vb a0 hw hv]
    simp only [List.mem_append, List.mem_range'_1]
    omega

/-- Witness for C1: with the reachable buffer contents `"1.234"` /
`"5.0"`, the value-only repaint writes exactly cursor-to-(0,0), the
five watts characters, cursor-to-(0,1), the three vlim characters —
and no label address is written. -/
theorem repaint_full_redraw_vs_value_only_witness :
    ("1.234".length ≤ 6 ∧ "5.0".length ≤ 6)
    ∧ (menu.repaint_cycle ε_ok true true ⟨[], 0⟩
        ⟨.nan, .fin 5, "1.234", "5.0", false⟩).2.2 =
      [menu.Ev.lock_take true, .bus ⟨0x80, false⟩, .bus ⟨49, true⟩,
        .bus ⟨46, true⟩, .bus ⟨50, true⟩, .bus ⟨51, true⟩, .bus ⟨52, true⟩,
        .bus ⟨0xC0, false⟩, .bus ⟨53, true⟩, .bus ⟨46, true⟩, .bus ⟨48, true⟩,
        menu.Ev.lock_give]
    ∧ 0x06 ∉ ddram_writes (bus_writes
        (menu.repaint_cycle ε_ok true true ⟨[], 0⟩
          ⟨.nan, .fin 5, "1.234", "5.0", false⟩).2.2) 0 :=
  ⟨by decide,
   ((repaint_full_redraw_vs_value_only .nan (.fin 5) "1.234" "5.0" 0
      (by decide) (by decide)).2.1).trans (by decide),
   (repaint_full_redraw_vs_value_only .nan (.fin 5) "1.234" "5.0" 0
      (by decide) (by decide)).2.2.1⟩

end CP
